import Mathlib

/-
Verification development for the background-automation layer of the Rscoop
application (source files: `scheduler.rs`, `commands/debug.rs`,
`commands/uninstall.rs`, `commands/doctor/cleanup.rs`).

The Rust code is shallowly embedded: pure string/path classification becomes
Lean functions on strings; the effectful scheduler loop body becomes a pure
function from collaborator outcomes to an ordered trace of observable effects
(UI events, log-store appends, timestamp writes, collaborator calls); the
retrying delete engine becomes a recursive function over a filesystem tree
with oracles deciding the success of each delete syscall.  Rust `u32` casts
are modelled with explicit `% 2 ^ 32`.
-/

namespace Rscoop

/-! ### Paths and string containment

A Rust `Path` is observed by the code only through two derived strings:
`to_string_lossy()` (the full textual path) and
`file_name().and_then(to_str).unwrap_or("")` (the final component, or the
empty string).  `FsPath` records exactly those two views. -/

structure FsPath where
  pathStr : String
  fileName : String
deriving DecidableEq

/-- Substring search on character lists: `pat` occurs contiguously in `s`. -/
def charListContains (pat : List Char) : List Char → Bool
  | [] => pat.isEmpty
  | c :: rest => pat.isPrefixOf (c :: rest) || charListContains pat rest

/-- Rust `str::contains(pattern)`: substring containment. -/
def strContains (s pat : String) : Bool :=
  charListContains pat.toList s.toList

/-- Rust `str::ends_with(pattern)`. -/
def strEndsWith (s pat : String) : Bool :=
  pat.toList.isSuffixOf s.toList

/-! ### Constants from `commands/debug.rs` -/

def MAX_FILE_RETRIES : Nat := 3

def SETTINGS_FILE : String := "settings.dat"

def SIGNALS_FILE : String := "signals.dat"

def VERSION_FILE : String := "version.txt"

def FACTORY_RESET_MARKER : String := ".factory_reset"

def OLD_APP_DIR : String := "rscoop"

def BACKUP_EXT : String := ".bak"

def LOCKED_FILES : List String :=
  [SETTINGS_FILE, SIGNALS_FILE, VERSION_FILE, FACTORY_RESET_MARKER]

def WEBVIEW_LOCKED_DIRS : List String :=
  ["shared_proto_db", "IndexedDB", "Local Storage", "Session Storage",
   "GPUCache", "Code Cache"]

/-! ### Path classification predicates (`commands/debug.rs`) -/

/-- Embeds `is_webview_locked_file` (debug.rs lines 284 - 310).  The two Rust
early-return `if` blocks become a disjunction, in source order. -/
def is_webview_locked_file (p : FsPath) : Bool :=
  (strContains p.pathStr "EBWebView" &&
      (strContains p.pathStr "shared_proto_db" ||
       strContains p.pathStr "IndexedDB" ||
       strContains p.pathStr "Local Storage" ||
       strContains p.pathStr "Session Storage"))
  ||
  ((["LOCK", "LOG", "MANIFEST-", ".log"].any fun pat =>
      strContains p.fileName pat) &&
    strContains p.pathStr "EBWebView")

/-- Embeds `is_webview_locked_dir` (debug.rs lines 313 - 321). -/
def is_webview_locked_dir (p : FsPath) : Bool :=
  strContains p.pathStr "EBWebView" &&
    (WEBVIEW_LOCKED_DIRS.any fun pat => strContains p.pathStr pat)

/-- Embeds `is_file_locked_by_current_process` (debug.rs lines 267 - 281). -/
def is_file_locked_by_current_process (p : FsPath) : Bool :=
  (LOCKED_FILES.any fun locked => p.fileName == locked) ||
  (strEndsWith p.fileName ".log" || strContains p.fileName OLD_APP_DIR)

/-- The classification exactly as claim C5 words it: inside the embedded
browser data directory, and either one of the `WEBVIEW_LOCKED_DIRS` names
occurs in the path, or the file name IS the literal `LOCK` or `LOG`, or has a
`MANIFEST-` prefix, or a `.log` suffix.  Stated from the claim, to be compared
with `is_webview_locked_file`. -/
def webviewLockedFileClaimed (p : FsPath) : Bool :=
  strContains p.pathStr "EBWebView" &&
    ((WEBVIEW_LOCKED_DIRS.any fun d => strContains p.pathStr d) ||
     (p.fileName == "LOCK" || p.fileName == "LOG" ||
      "MANIFEST-".toList.isPrefixOf p.fileName.toList ||
      strEndsWith p.fileName ".log"))

/-- The classification with claim C5 amended to the code: the same
`EBWebView` guard, but the second disjunct uses only the four storage names
written inline in the function (not the six-entry table), and the four
lock-file patterns are matched by substring containment, not by literal
equality, prefix or suffix. -/
def webviewLockedFileAmended (p : FsPath) : Bool :=
  strContains p.pathStr "EBWebView" &&
    ((["shared_proto_db", "IndexedDB", "Local Storage", "Session Storage"].any
        fun d => strContains p.pathStr d) ||
     (["LOCK", "LOG", "MANIFEST-", ".log"].any fun pat =>
        strContains p.fileName pat))

/-! ### Interval scheduler decision logic (`scheduler.rs` lines 9 - 59) -/

/-- Embeds the `parse_interval` closure (scheduler.rs lines 9 - 19).  Rust
`str::parse::<u64>` accepts only values below `2 ^ 64`. -/
def parse_interval (val : String) : Option Nat :=
  if val = "24h" ∨ val = "1d" then some 86400
  else if val = "7d" ∨ val = "1w" then some 604800
  else if val = "1h" then some 3600
  else if val = "6h" then some 21600
  else if val = "off" then none
  else if val.startsWith "custom:" then
    ((val.drop 7).toNat?).filter fun n => n < 2 ^ 64
  else (val.toNat?).filter fun n => n < 2 ^ 64

/-- Embeds the elapsed-time computation (scheduler.rs line 53); Nat
subtraction is Rust `saturating_sub`. -/
def elapsedSince (intervalSecs lastTs now : Nat) : Nat :=
  if lastTs = 0 then intervalSecs else now - lastTs

/-! ### Update orchestrator (`scheduler.rs` lines 60 - 300)

One due iteration of the scheduler loop reads the silent flag, the
chain-package flag and the logging flag from collaborators, calls the bucket
and (conditionally) package update collaborators, and performs observable
effects: UI events on the main window, log-store appends, and the timestamp
write.  The loop body is embedded as a pure function from the collaborator
outcomes to the ordered trace of those effects. -/

/-- One element of `update_all_buckets` result vector (field subset the
scheduler reads: `success`, `bucket_name`, `message`). -/
structure BucketResult where
  success : Bool
  bucket_name : String
  message : String
deriving DecidableEq

/-- Embeds `crate::commands::update_log::UpdateLogEntry` as constructed by the
scheduler.  The wall-clock `timestamp` field is omitted: no claim concerns it
and it is never read back.  `success_count` and `total_count` are the Rust
`u32` fields, kept as `Nat` with the `as u32` casts written `% 2 ^ 32`. -/
structure UpdateLogEntry where
  operation_type : String
  operation_result : String
  success_count : Nat
  total_count : Nat
  details : List String
deriving DecidableEq

/-- An observable effect of the scheduler loop body, in program order.
`emitStart`, `emitOutput`, `emitFinished` are the three window events
(`auto-operation-start`, `operation-output`, `operation-finished`);
`addLogEntry` is the entry handed to the log store; `setLastRunTs` is the
`buckets.lastAutoUpdateTs` write; the two `call...` constructors mark the
collaborator invocations. -/
inductive Effect where
  | emitStart (message : String)
  | emitOutput (line : String) (source : String)
  | emitFinished (success : Bool) (message : String)
  | addLogEntry (entry : UpdateLogEntry)
  | setLastRunTs (ts : Nat)
  | callUpdateAllBuckets
  | callUpdateAllPackages
deriving DecidableEq

def U32_MOD : Nat := 2 ^ 32

/-- The per-bucket detail line (scheduler.rs lines 100 - 104, repeated at
lines 135 - 139). -/
def bucketDetail (r : BucketResult) : String :=
  if r.success then "✓ Updated bucket: " ++ r.bucket_name
  else "✗ Failed to update " ++ r.bucket_name ++ ": " ++ r.message

/-- The aggregate result tag (scheduler.rs lines 109 - 115). -/
def bucketOperationResult (successes total : Nat) : String :=
  if successes = total then "success"
  else if successes > 0 then "partial"
  else "failed"

/-- The bucket-stage log entry (scheduler.rs lines 117 - 124). -/
def bucketLogEntry (results : List BucketResult) : UpdateLogEntry :=
  let successes := (results.filter fun r => r.success).length
  { operation_type := "bucket"
    operation_result := bucketOperationResult successes results.length
    success_count := successes % U32_MOD
    total_count := results.length % U32_MOD
    details := results.map bucketDetail }

/-- Lines counted as successful package updates (scheduler.rs lines
216 - 218). -/
def packageSuccessCount (lines : List String) : Nat :=
  (lines.filter fun line =>
    strContains line "Updated" && !strContains line "up to date").length

/-- The package-stage log entry on collaborator success (scheduler.rs lines
222 - 229). -/
def packageLogEntry (lines : List String) : UpdateLogEntry :=
  let sc := packageSuccessCount lines % U32_MOD
  { operation_type := "package"
    operation_result := "success"
    success_count := if sc = 0 then 1 else sc
    total_count := if lines.length = 0 then 1 else lines.length % U32_MOD
    details := lines }

/-- The package-stage log entry on collaborator failure (scheduler.rs lines
257 - 264); `package_update_logs` is empty before the error line is pushed. -/
def packageErrorLogEntry (e : String) : UpdateLogEntry :=
  { operation_type := "package"
    operation_result := "failed"
    success_count := 0
    total_count := 1
    details := ["Error: " ++ e] }

/-- The recurring Rust pattern
`if !silent_auto_update { if let Some(window) = app.get_webview_window("main")
{ ... } }`: the wrapped window emissions happen only when not silent and the
main window exists. -/
def emitIfVisible (silent hasWindow : Bool) (effects : List Effect) :
    List Effect :=
  if !silent && hasWindow then effects else []

/-- Modelled from the spec: `add_log_entry_if_enabled`
(`commands/update_log`, not among the provided sources) appends the entry to
the persisted log store only when the logging feature flag is enabled, and
otherwise discards it.  Its own error return is swallowed by the scheduler
(`if let Err(e) = ... { log::error!(...) }`). -/
def add_log_entry_if_enabled (loggingEnabled : Bool) (entry : UpdateLogEntry) :
    List Effect :=
  if loggingEnabled then [Effect.addLogEntry entry] else []

/-- The Stage B (package update) block (scheduler.rs lines 179 - 272), taken
when `buckets.autoUpdatePackagesEnabled` is true. -/
def packageStage (silent hasWindow loggingEnabled : Bool)
    (packageOutcome : Except String (List String)) : List Effect :=
  emitIfVisible silent hasWindow
    [Effect.emitStart "Updating packages...",
     Effect.emitOutput "Starting automatic package update..." "stdout"]
  ++ [Effect.callUpdateAllPackages]
  ++ match packageOutcome with
     | Except.ok lines =>
       emitIfVisible silent hasWindow
         ((lines.map fun line => Effect.emitOutput line "stdout")
          ++ [Effect.emitFinished true
                "Automatic package update completed successfully"])
       ++ add_log_entry_if_enabled loggingEnabled (packageLogEntry lines)
     | Except.error e =>
       emitIfVisible silent hasWindow
         [Effect.emitOutput ("Error: " ++ e) "stderr",
          Effect.emitFinished false
            ("Automatic package update failed: " ++ e)]
       ++ add_log_entry_if_enabled loggingEnabled (packageErrorLogEntry e)

/-- The effects following the `update_all_buckets` call: the `match` on the
Stage A outcome (scheduler.rs lines 88 - 300). -/
def bucketStageTail (silent hasWindow loggingEnabled autoUpdatePackages : Bool)
    (runStartedAt : Nat)
    (bucketOutcome : Except String (List BucketResult))
    (packageOutcome : Except String (List String)) : List Effect :=
  match bucketOutcome with
  | Except.ok results =>
    let successes := (results.filter fun r => r.success).length
    add_log_entry_if_enabled loggingEnabled (bucketLogEntry results)
    ++ emitIfVisible silent hasWindow
         ((results.map fun r =>
            Effect.emitOutput (bucketDetail r)
              (if r.success then "stdout" else "stderr"))
          ++ [Effect.emitFinished (successes == results.length)
                ("Bucket update completed: " ++ toString successes ++
                 " of " ++ toString results.length ++ " succeeded")])
    ++ [Effect.setLastRunTs runStartedAt]
    ++ (if autoUpdatePackages then
          packageStage silent hasWindow loggingEnabled packageOutcome
        else [])
  | Except.error e =>
    emitIfVisible silent hasWindow
      [Effect.emitOutput ("Error: " ++ e) "stderr",
       Effect.emitFinished false ("Bucket update failed: " ++ e)]
    ++ [Effect.setLastRunTs runStartedAt]

/-- The body of one due scheduler iteration (scheduler.rs lines 60 - 300),
from the start-event emission through the Stage A match, as the ordered trace
of observable effects.  `bucketOutcome` and `packageOutcome` are the results
of the two collaborator calls; `runStartedAt` is the `now` captured at line
61. -/
def schedulerRun (silent hasWindow loggingEnabled autoUpdatePackages : Bool)
    (runStartedAt : Nat)
    (bucketOutcome : Except String (List BucketResult))
    (packageOutcome : Except String (List String)) : List Effect :=
  emitIfVisible silent hasWindow
    [Effect.emitStart "Updating buckets...",
     Effect.emitOutput "Starting automatic bucket update..." "stdout"]
  ++ Effect.callUpdateAllBuckets ::
      bucketStageTail silent hasWindow loggingEnabled autoUpdatePackages
        runStartedAt bucketOutcome packageOutcome

/-- Outcome of one iteration of the scheduler loop (scheduler.rs lines
21 - 308): an off-poll 30 second sleep, a bounded not-due sleep, or a run
with its effect trace. -/
inductive IterOutcome where
  | offPoll
  | sleepFor (secs : Nat)
  | run (trace : List Effect)
deriving DecidableEq

/-- One full iteration of the scheduler loop: parse the interval setting,
decide due/not-due from the persisted timestamp, and on a due iteration run
the orchestrator body (with `run_started_at = now`, scheduler.rs line 61). -/
def scheduler_iteration (intervalRaw : String) (lastTs now : Nat)
    (silent hasWindow loggingEnabled autoUpdatePackages : Bool)
    (bucketOutcome : Except String (List BucketResult))
    (packageOutcome : Except String (List String)) : IterOutcome :=
  match parse_interval intervalRaw with
  | none => IterOutcome.offPoll
  | some intervalSecs =>
    let elapsed := elapsedSince intervalSecs lastTs now
    if intervalSecs ≤ elapsed then
      IterOutcome.run (schedulerRun silent hasWindow loggingEnabled
        autoUpdatePackages now bucketOutcome packageOutcome)
    else IterOutcome.sleepFor (min (intervalSecs - elapsed) 3600)

/-- The log-store appends contained in an effect trace, in order. -/
def logEntriesOf (trace : List Effect) : List UpdateLogEntry :=
  trace.filterMap fun e =>
    match e with
    | Effect.addLogEntry entry => some entry
    | _ => none

/-- Whether an effect is one of the three UI-channel events. -/
def isUiEvent : Effect → Bool
  | Effect.emitStart _ => true
  | Effect.emitOutput _ _ => true
  | Effect.emitFinished _ _ => true
  | _ => false

/-- Whether an `Except` value is the success variant. -/
def exceptIsOk {ε α : Type} : Except ε α → Bool
  | Except.ok _ => true
  | Except.error _ => false

/-! ### Resource reclamation engine (`commands/debug.rs` lines 83 - 175)

The filesystem visible to `safe_remove_dir` recursion is a tree of nodes;
whether a given `fs::remove_file` / `fs::remove_dir_all` syscall succeeds is
decided by oracles indexed by the path and the attempt number.  Each function
returns its boolean result together with the ordered list of delete syscalls
it performed, so that "never touches a locked path" is a statement about the
trace. -/

/-- A directory entry as seen by `read_dir`: a file, or a directory with its
own entries. -/
inductive FsNode where
  | file (path : FsPath)
  | dir (path : FsPath) (children : List FsNode)

/-- A delete syscall performed by the reclamation engine. -/
inductive DeleteCall where
  | removeFile (path : FsPath)
  | removeDirAll (path : FsPath)
deriving DecidableEq

/-- The retry loop of `safe_remove_file` (debug.rs lines 91 - 120):
`for attempt in 1..=maxRetries`, returning on the first successful removal,
or false when the final attempt fails.  `fuel` counts the iterations left
(`maxRetries` at entry, so the loop also immediately yields false when
`maxRetries = 0`, as the empty Rust range would). -/
def fileRetryLoop (fileOracle : FsPath → Nat → Bool) (maxRetries : Nat)
    (p : FsPath) : Nat → Nat → Bool × List DeleteCall
  | _, 0 => (false, [])
  | attempt, fuel + 1 =>
    if fileOracle p attempt then (true, [DeleteCall.removeFile p])
    else if attempt = maxRetries then (false, [DeleteCall.removeFile p])
    else
      let rest := fileRetryLoop fileOracle maxRetries p (attempt + 1) fuel
      (rest.1, DeleteCall.removeFile p :: rest.2)

/-- Embeds `safe_remove_file` (debug.rs lines 84 - 121).  The retry bound is
a parameter generalizing the constant `MAX_FILE_RETRIES`. -/
def safe_remove_file (fileOracle : FsPath → Nat → Bool) (maxRetries : Nat)
    (p : FsPath) : Bool × List DeleteCall :=
  if is_webview_locked_file p then (false, [])
  else fileRetryLoop fileOracle maxRetries p 1 maxRetries

mutual

/-- Embeds `safe_remove_dir` (debug.rs lines 124 - 175).  The directory node
carries the children `read_dir` yields on the partial-failure path; the retry
bound parameter generalizes the local constant `MAX_RETRIES = 3`. -/
def safe_remove_dir (fileOracle dirOracle : FsPath → Nat → Bool)
    (maxFileRetries maxDirRetries : Nat) (p : FsPath)
    (children : List FsNode) : Bool × List DeleteCall :=
  if is_webview_locked_dir p then (false, [])
  else dirRetryLoop fileOracle dirOracle maxFileRetries maxDirRetries p
    children 1 maxDirRetries
termination_by (sizeOf children, 1, 0)

/-- The retry loop of `safe_remove_dir` (debug.rs lines 134 - 173): on each
failed non-final attempt, the children are individually swept (files through
`safe_remove_file`, directories recursively) before the whole-subtree removal
is retried. -/
def dirRetryLoop (fileOracle dirOracle : FsPath → Nat → Bool)
    (maxFileRetries maxDirRetries : Nat) (p : FsPath)
    (children : List FsNode) : Nat → Nat → Bool × List DeleteCall
  | _, 0 => (false, [])
  | attempt, fuel + 1 =>
    if dirOracle p attempt then (true, [DeleteCall.removeDirAll p])
    else if attempt = maxDirRetries then (false, [DeleteCall.removeDirAll p])
    else
      let childCalls := sweepChildren fileOracle dirOracle maxFileRetries
        maxDirRetries children
      let rest := dirRetryLoop fileOracle dirOracle maxFileRetries
        maxDirRetries p children (attempt + 1) fuel
      (rest.1, DeleteCall.removeDirAll p :: (childCalls ++ rest.2))
termination_by _a fuel => (sizeOf children, 0, fuel)

/-- The per-child sweep inside the directory retry loop (debug.rs lines
159 - 168); the results of the child removals are discarded (`let _ = ...`),
only their delete syscalls are observable. -/
def sweepChildren (fileOracle dirOracle : FsPath → Nat → Bool)
    (maxFileRetries maxDirRetries : Nat) : List FsNode → List DeleteCall
  | [] => []
  | FsNode.file q :: rest =>
    (safe_remove_file fileOracle maxFileRetries q).2
    ++ sweepChildren fileOracle dirOracle maxFileRetries maxDirRetries rest
  | FsNode.dir q cs :: rest =>
    (safe_remove_dir fileOracle dirOracle maxFileRetries maxDirRetries q cs).2
    ++ sweepChildren fileOracle dirOracle maxFileRetries maxDirRetries rest
termination_by l => (sizeOf l, 0, 0)

end

/-! ### Data sweeps and the factory-reset coordinator
(`commands/debug.rs` lines 177 - 264, 369 - 494, 703 - 718) -/

/-- Running totals threaded by reference through `clear_regular_directory`
(`total_cleared: &mut usize`, `failed_files: &mut Vec<PathBuf>`). -/
structure SweepOutcome where
  cleared : Nat
  failed : List FsPath
deriving DecidableEq

/-- The per-entry branch of `clear_regular_directory` (debug.rs lines
242 - 261): files locked by the current process are skipped, other files go
through `safe_remove_file` (counting successes), directories through
`safe_remove_dir` (success not counted, failure recorded). -/
def clearDirEntryStep (fileOracle dirOracle : FsPath → Nat → Bool)
    (acc : SweepOutcome) : FsNode → SweepOutcome
  | FsNode.file p =>
    if is_file_locked_by_current_process p then
      { acc with failed := acc.failed ++ [p] }
    else if (safe_remove_file fileOracle MAX_FILE_RETRIES p).1 then
      { acc with cleared := acc.cleared + 1 }
    else { acc with failed := acc.failed ++ [p] }
  | FsNode.dir p cs =>
    if (safe_remove_dir fileOracle dirOracle MAX_FILE_RETRIES 3 p cs).1 then
      acc
    else { acc with failed := acc.failed ++ [p] }

/-- Embeds `clear_regular_directory` (debug.rs lines 228 - 264).  When
`read_dir` fails the function logs and returns `Ok` with the totals
untouched; it has no other return than `Ok`. -/
def clear_regular_directory (fileOracle dirOracle : FsPath → Nat → Bool)
    (readDirOk : Bool) (entries : List FsNode) (acc : SweepOutcome) :
    SweepOutcome × Except String Unit :=
  ((if !readDirOk then acc
    else entries.foldl (clearDirEntryStep fileOracle dirOracle) acc),
   Except.ok ())

/-- One of the two candidate data directories enumerated by
`clear_application_data` (debug.rs lines 187 - 192): whether the `dirs`
lookup produced a path, whether it exists as a directory, and its listing. -/
structure DataDirSnapshot where
  present : Bool
  dirExists : Bool
  readDirOk : Bool
  entries : List FsNode

/-- The fold of `clear_application_data` over its candidate directories
(debug.rs lines 195 - 202), threading the `?` on
`clear_regular_directory`. -/
def clearDataDirs (fileOracle dirOracle : FsPath → Nat → Bool)
    (acc : SweepOutcome) : List DataDirSnapshot → Except String SweepOutcome
  | [] => Except.ok acc
  | d :: rest =>
    if d.present && d.dirExists then
      match clear_regular_directory fileOracle dirOracle d.readDirOk
          d.entries acc with
      | (acc2, Except.ok _) => clearDataDirs fileOracle dirOracle acc2 rest
      | (_, Except.error e) => Except.error e
    else clearDataDirs fileOracle dirOracle acc rest

/-- Embeds `clear_application_data` (debug.rs lines 179 - 225).  The
Windows-only `clear_registry_data` call itself only ever returns `Ok` (every
deletion failure inside it is discarded), so it contributes nothing to the
result. -/
def clear_application_data (fileOracle dirOracle : FsPath → Nat → Bool)
    (dataDirs : List DataDirSnapshot) : Except String SweepOutcome :=
  clearDataDirs fileOracle dirOracle { cleared := 0, failed := [] } dataDirs

/-- One candidate store file enumerated by `clear_store_data` (debug.rs lines
432 - 461): its path and whether `exists() && is_file()` holds. -/
structure StoreFileSnapshot where
  path : FsPath
  existsIsFile : Bool

/-- Embeds `clear_store_data` (debug.rs lines 428 - 494): attempts
`safe_remove_file` on every present store file, counts successes, records
failures, and returns `Ok` unconditionally (locked files are deliberately not
an error). -/
def clear_store_data (fileOracle : FsPath → Nat → Bool)
    (storeFiles : List StoreFileSnapshot) :
    (Nat × List FsPath) × Except String Unit :=
  let step := fun (acc : Nat × List FsPath) (s : StoreFileSnapshot) =>
    if s.existsIsFile then
      if (safe_remove_file fileOracle MAX_FILE_RETRIES s.path).1 then
        (acc.1 + 1, acc.2)
      else (acc.1, acc.2 ++ [s.path])
    else acc
  (storeFiles.foldl step (0, []), Except.ok ())

/-- Embeds `create_factory_reset_marker` (debug.rs lines 384 - 410).
`dataDirAvailable` is whether `dirs::data_dir()` is `Some`; for the marker
path `<data>/<app-id>/.factory_reset` the `parent()` call is always `Some`,
so the only fall-through to the final error is a missing data directory.
`dirErr` and `writeErr` carry the io error texts. -/
def create_factory_reset_marker (dataDirAvailable createDirOk writeOk : Bool)
    (dirErr writeErr : String) : Except String Unit :=
  if dataDirAvailable then
    if createDirOk then
      if writeOk then Except.ok ()
      else Except.error ("Failed to create factory reset marker: " ++ writeErr)
    else Except.error ("Failed to create directory for marker: " ++ dirErr)
  else Except.error "Could not determine app data directory"

/-- Embeds `schedule_webview_cleanup` (debug.rs lines 703 - 718): both
filesystem writes discard their results (`let _ = ...`), so the function
returns `Ok` on every path. -/
def schedule_webview_cleanup (_dataDirAvailable : Bool) :
    Except String Unit :=
  Except.ok ()

/-- Embeds `factory_reset` (debug.rs lines 414 - 424): the four steps chained
with `?`, written as explicit `Except.bind`. -/
def factory_reset (fileOracle dirOracle : FsPath → Nat → Bool)
    (dataDirs : List DataDirSnapshot) (storeFiles : List StoreFileSnapshot)
    (dataDirAvailable createDirOk writeOk : Bool)
    (dirErr writeErr : String) : Except String Unit :=
  (clear_application_data fileOracle dirOracle dataDirs).bind fun _ =>
    ((clear_store_data fileOracle storeFiles).2).bind fun _ =>
      (create_factory_reset_marker dataDirAvailable createDirOk writeOk
        dirErr writeErr).bind fun _ =>
        schedule_webview_cleanup dataDirAvailable

/-! ### Factory-reset marker check (`commands/debug.rs` lines 370 - 381) -/

/-- The filesystem state `check_factory_reset_marker` observes and mutates:
whether `dirs::data_dir()` resolves, and whether the marker file exists. -/
structure MarkerFs where
  dataDirAvailable : Bool
  markerExists : Bool
deriving DecidableEq

/-- Embeds `check_factory_reset_marker` (debug.rs lines 371 - 381): when the
marker exists it is removed (result discarded, `removeOk` telling whether the
`fs::remove_file` succeeded) and `true` is returned; otherwise `false`, with
the filesystem untouched. -/
def check_factory_reset_marker (removeOk : Bool) (fs : MarkerFs) :
    Bool × MarkerFs :=
  if fs.dataDirAvailable then
    if fs.markerExists then
      (true, { fs with markerExists := !removeOk })
    else (false, fs)
  else (false, fs)

/-! ### Package mutation commands (`commands/uninstall.rs`) -/

/-- Embeds `crate::commands::scoop::ScoopOp` (the closed operation tag
matched in `execute_package_operation`). -/
inductive ScoopOp where
  | install
  | uninstall
  | update
  | updateForce
  | clearCache
  | updateAll
deriving DecidableEq

/-- A step performed by a package mutation command, in program order. -/
inductive PkgStep where
  | executeScoopOp (op : ScoopOp) (package : String) (bucket : Option String)
  | invalidateManifestCache
  | invalidateInstalledCache
  | triggerAutoCleanup
deriving DecidableEq

/-- Embeds `uninstall_package` (uninstall.rs lines 19 - 40):
`execute_package_operation` with `ScoopOp::Uninstall` (propagating its error
with `?`), then manifest-cache invalidation, installed-cache invalidation,
and the auto-cleanup trigger.  `execResult` is the outcome of the underlying
scoop command execution. -/
def uninstall_package (execResult : Except String Unit)
    (packageName bucket : String) : List PkgStep × Except String Unit :=
  match execResult with
  | Except.error e =>
    ([PkgStep.executeScoopOp ScoopOp.uninstall packageName (some bucket)],
     Except.error e)
  | Except.ok _ =>
    ([PkgStep.executeScoopOp ScoopOp.uninstall packageName (some bucket),
      PkgStep.invalidateManifestCache,
      PkgStep.invalidateInstalledCache,
      PkgStep.triggerAutoCleanup],
     Except.ok ())

/-- Embeds `clear_package_cache` (uninstall.rs lines 52 - 71):
`execute_package_operation` with `ScoopOp::ClearCache` (propagating its error
with `?`), then the auto-cleanup trigger; no cache invalidation call
appears in its body. -/
def clear_package_cache (execResult : Except String Unit)
    (packageName bucket : String) : List PkgStep × Except String Unit :=
  match execResult with
  | Except.error e =>
    ([PkgStep.executeScoopOp ScoopOp.clearCache packageName (some bucket)],
     Except.error e)
  | Except.ok _ =>
    ([PkgStep.executeScoopOp ScoopOp.clearCache packageName (some bucket),
      PkgStep.triggerAutoCleanup],
     Except.ok ())

/-- The shared installed-package cache snapshot (spec section 3). -/
structure InstalledPackageCache where
  packages : List String
  fingerprint : String
deriving DecidableEq

/-- Modelled from the spec: `invalidate_installed_cache`
(`commands/installed`, not among the provided sources) clears the shared
installed-package cache slot to `None`; the other steps of these commands do
not write the slot. -/
def applyPkgStep (cache : Option InstalledPackageCache) :
    PkgStep → Option InstalledPackageCache
  | PkgStep.invalidateInstalledCache => none
  | _ => cache

/-- The installed-package cache slot after a sequence of steps. -/
def applyPkgSteps (cache : Option InstalledPackageCache)
    (steps : List PkgStep) : Option InstalledPackageCache :=
  steps.foldl applyPkgStep cache

/-! ## Helper lemmas -/

theorem logEntriesOf_nil : logEntriesOf [] = [] := rfl

theorem logEntriesOf_cons (e : Effect) (t : List Effect) :
    logEntriesOf (e :: t) =
      (match e with
       | Effect.addLogEntry entry => [entry]
       | _ => []) ++ logEntriesOf t := by
  cases e <;> rfl

theorem logEntriesOf_append (xs ys : List Effect) :
    logEntriesOf (xs ++ ys) = logEntriesOf xs ++ logEntriesOf ys := by
  simp [logEntriesOf, List.filterMap_append]

theorem logEntriesOf_map_emitOutput (l : List String) (src : String) :
    logEntriesOf (l.map fun line => Effect.emitOutput line src) = [] := by
  simp [logEntriesOf, List.filterMap_map]

theorem logEntriesOf_map_bucketDetail (results : List BucketResult) :
    logEntriesOf (results.map fun r =>
      Effect.emitOutput (bucketDetail r)
        (if r.success then "stdout" else "stderr")) = [] := by
  simp [logEntriesOf, List.filterMap_map]

theorem logEntriesOf_add_log_entry (l : Bool) (entry : UpdateLogEntry) :
    logEntriesOf (add_log_entry_if_enabled l entry) =
      if l then [entry] else [] := by
  unfold add_log_entry_if_enabled
  split <;> simp [logEntriesOf]

theorem logEntriesOf_packageStage (s w l : Bool)
    (po : Except String (List String)) :
    logEntriesOf (packageStage s w l po) =
      match po with
      | Except.ok lines => if l then [packageLogEntry lines] else []
      | Except.error e => if l then [packageErrorLogEntry e] else [] := by
  cases po <;>
    simp [packageStage, emitIfVisible, apply_ite logEntriesOf,
      logEntriesOf_append, logEntriesOf_cons, logEntriesOf_nil,
      logEntriesOf_map_emitOutput, logEntriesOf_add_log_entry]

/-- The log-store appends of one due run, independent of silent mode and of
window presence: the bucket entry exactly on Stage A success, then the
package entry exactly when Stage B ran, each gated by the logging flag. -/
theorem logEntriesOf_schedulerRun (s w l a : Bool) (ts : Nat)
    (bo : Except String (List BucketResult))
    (po : Except String (List String)) :
    logEntriesOf (schedulerRun s w l a ts bo po) =
      match bo with
      | Except.error _ => []
      | Except.ok results =>
        (if l then [bucketLogEntry results] else []) ++
        (if a then
          (match po with
           | Except.ok lines => if l then [packageLogEntry lines] else []
           | Except.error e => if l then [packageErrorLogEntry e] else [])
         else []) := by
  cases bo <;> cases a <;>
    simp [schedulerRun, bucketStageTail, emitIfVisible,
      apply_ite logEntriesOf, logEntriesOf_append, logEntriesOf_cons,
      logEntriesOf_nil, logEntriesOf_map_bucketDetail,
      logEntriesOf_add_log_entry, logEntriesOf_packageStage]

theorem clearDataDirs_ok (fileOracle dirOracle : FsPath → Nat → Bool)
    (acc : SweepOutcome) (dirs : List DataDirSnapshot) :
    ∃ out, clearDataDirs fileOracle dirOracle acc dirs = Except.ok out := by
  induction dirs generalizing acc with
  | nil => exact ⟨acc, rfl⟩
  | cons d rest ih =>
    simp only [clearDataDirs, clear_regular_directory]
    split
    · exact ih _
    · exact ih _

/-! ## Claim theorems -/

/-- Claim C5, counterexample: the claimed classification is false on the
file `BACKLOG` inside the embedded-browser directory.  Its name is neither
the literal `LOCK` nor `LOG`, has no `MANIFEST-` prefix and no `.log`
suffix, and no storage subdirectory name occurs in the path, so the claimed
predicate rejects it; the code classifies it as locked, because `BACKLOG`
merely contains `LOG` as a substring. -/
theorem claim_C5_counterexample :
    is_webview_locked_file ⟨"EBWebView/BACKLOG", "BACKLOG"⟩ = true ∧
    webviewLockedFileClaimed ⟨"EBWebView/BACKLOG", "BACKLOG"⟩ = false := by
  decide

/-- Claim C5, amended: `is_webview_locked_file` returns true for a path
exactly when the path string contains `EBWebView` and either contains one of
the four storage names `shared_proto_db`, `IndexedDB`, `Local Storage`,
`Session Storage`, or the file name contains one of the patterns `LOCK`,
`LOG`, `MANIFEST-`, `.log` as a substring; for every other path it returns
false. -/
theorem claim_C5_amended (p : FsPath) :
    is_webview_locked_file p = webviewLockedFileAmended p := by
  unfold is_webview_locked_file webviewLockedFileAmended
  simp only [List.any_cons, List.any_nil, Bool.or_false]
  generalize strContains p.pathStr "EBWebView" = a
  generalize strContains p.pathStr "shared_proto_db" = b1
  generalize strContains p.pathStr "IndexedDB" = b2
  generalize strContains p.pathStr "Local Storage" = b3
  generalize strContains p.pathStr "Session Storage" = b4
  generalize strContains p.fileName "LOCK" = c1
  generalize strContains p.fileName "LOG" = c2
  generalize strContains p.fileName "MANIFEST-" = c3
  generalize strContains p.fileName ".log" = c4
  revert a b1 b2 b3 b4 c1 c2 c3 c4
  decide

/-- Claim C6: on a scheduler iteration whose interval setting parses to a
configured interval, the orchestrator runs exactly when
`now - lastRunEpochSeconds ≥ interval` (for a recorded previous run), and a
zero `lastRunEpochSeconds` makes the iteration due for every interval. -/
theorem claim_C6 (intervalRaw : String) (intervalSecs lastTs now : Nat)
    (s w l a : Bool) (bo : Except String (List BucketResult))
    (po : Except String (List String))
    (h : parse_interval intervalRaw = some intervalSecs) :
    (0 < lastTs →
      ((∃ tr, scheduler_iteration intervalRaw lastTs now s w l a bo po =
          IterOutcome.run tr) ↔ intervalSecs ≤ now - lastTs)) ∧
    (lastTs = 0 →
      ∃ tr, scheduler_iteration intervalRaw lastTs now s w l a bo po =
        IterOutcome.run tr) := by
  unfold scheduler_iteration
  rw [h]
  constructor
  · intro hpos
    have hne : ¬(lastTs = 0) := Nat.pos_iff_ne_zero.mp hpos
    simp only [elapsedSince, if_neg hne]
    by_cases hc : intervalSecs ≤ now - lastTs
    · simp only [if_pos hc, iff_true, hc]
      exact ⟨_, rfl⟩
    · simp only [if_neg hc, iff_false, hc]
      intro ⟨tr, htr⟩
      exact absurd htr (by simp)
  · intro h0
    simp only [elapsedSince, if_pos h0, le_refl, if_pos]
    exact ⟨_, rfl⟩

/-- Claim C6 witness: with interval setting `6h` (21600 seconds), a last run
at epoch second 1 and now 30000, the iteration runs the orchestrator. -/
theorem claim_C6_witness :
    ∃ tr, scheduler_iteration "6h" 1 30000 false true false false
      (Except.ok []) (Except.ok []) = IterOutcome.run tr :=
  ((claim_C6 "6h" 21600 1 30000 false true false false (Except.ok [])
      (Except.ok []) (by decide)).1 (by decide)).mpr (by decide)

/-- Claim C10: `check_factory_reset_marker` is a destructive read.  A true
result implies the marker existed; if the removal succeeded, the marker is
gone and an immediately following call returns false.  When the marker is
absent the result is false and the filesystem state is returned unchanged. -/
theorem claim_C10 (removeOk removeOk2 : Bool) (fs : MarkerFs) :
    ((check_factory_reset_marker removeOk fs).1 = true →
      fs.markerExists = true ∧
      (removeOk = true →
        (check_factory_reset_marker removeOk fs).2.markerExists = false ∧
        (check_factory_reset_marker removeOk2
          (check_factory_reset_marker removeOk fs).2).1 = false)) ∧
    (fs.markerExists = false →
      check_factory_reset_marker removeOk fs = (false, fs)) := by
  obtain ⟨d, m⟩ := fs
  cases d <;> cases m <;> cases removeOk <;> cases removeOk2 <;>
    simp [check_factory_reset_marker]

/-- Claim C10 witness: with the marker present and removal succeeding, the
first call returns true, the second false; with the marker absent the state
is unchanged. -/
theorem claim_C10_witness :
    (check_factory_reset_marker true ⟨true, true⟩).1 = true ∧
    (check_factory_reset_marker true
      (check_factory_reset_marker true ⟨true, true⟩).2).1 = false ∧
    check_factory_reset_marker true ⟨true, false⟩ = (false, ⟨true, false⟩) := by
  refine ⟨by decide, ?_, (claim_C10 true true ⟨true, false⟩).2 rfl⟩
  exact (((claim_C10 true true ⟨true, true⟩).1 (by decide)).2 rfl).2

/-- Claim C4, counterexample: a successful `clear_package_cache` run performs
no installed-cache invalidation step, and a populated cache slot survives it
unchanged, refuting that every mutating package operation clears the slot
before returning successfully. -/
theorem claim_C4_counterexample :
    (clear_package_cache (Except.ok ()) "pkg" "main").2 = Except.ok () ∧
    PkgStep.invalidateInstalledCache ∉
      (clear_package_cache (Except.ok ()) "pkg" "main").1 ∧
    applyPkgSteps (some ⟨["pkg"], "fp"⟩)
      (clear_package_cache (Except.ok ()) "pkg" "main").1 =
      some ⟨["pkg"], "fp"⟩ := by
  refine ⟨rfl, by decide, by decide⟩

/-- Claim C4, amended: `uninstall_package` invalidates the shared
installed-package cache (clearing its slot to `None`) before returning
successfully, but `clear_package_cache` returns successfully without any
installed-cache invalidation, leaving the slot as it was. -/
theorem claim_C4_amended (packageName bucket : String)
    (c : InstalledPackageCache) :
    PkgStep.invalidateInstalledCache ∈
      (uninstall_package (Except.ok ()) packageName bucket).1 ∧
    applyPkgSteps (some c)
      (uninstall_package (Except.ok ()) packageName bucket).1 = none ∧
    (uninstall_package (Except.ok ()) packageName bucket).2 = Except.ok () ∧
    PkgStep.invalidateInstalledCache ∉
      (clear_package_cache (Except.ok ()) packageName bucket).1 ∧
    applyPkgSteps (some c)
      (clear_package_cache (Except.ok ()) packageName bucket).1 = some c ∧
    (clear_package_cache (Except.ok ()) packageName bucket).2 =
      Except.ok () := by
  simp [uninstall_package, clear_package_cache, applyPkgSteps, applyPkgStep]

/-- Claim C1, counterexample: with the chain-package-update setting true,
when the bucket-update collaborator returns an error the package-update
stage is never invoked (no `callUpdateAllPackages` effect in the trace),
refuting that Stage B runs for every outcome of Stage A. -/
theorem claim_C1_counterexample :
    Effect.callUpdateAllPackages ∉
      schedulerRun false true true true 0 (Except.error "boom")
        (Except.ok []) := by
  decide

/-- Claim C1, amended: when the chain-package-update setting is true the
package-update stage is executed after the bucket-update stage exactly when
Stage A returned success; on a Stage A error, Stage B is skipped.  The second
conjunct places the Stage A collaborator call before everything Stage B
does. -/
theorem claim_C1_amended (s w l a : Bool) (ts : Nat)
    (bo : Except String (List BucketResult))
    (po : Except String (List String)) :
    ((Effect.callUpdateAllPackages ∈ schedulerRun s w l a ts bo po) ↔
      (a = true ∧ exceptIsOk bo = true)) ∧
    ∃ pre post, schedulerRun s w l a ts bo po =
        pre ++ Effect.callUpdateAllBuckets :: post ∧
      Effect.callUpdateAllPackages ∉ pre := by
  constructor
  · cases s <;> cases w <;> cases l <;> cases a <;> cases bo <;> cases po <;>
      simp [schedulerRun, bucketStageTail, packageStage, emitIfVisible,
        add_log_entry_if_enabled, exceptIsOk]
  · refine ⟨emitIfVisible s w
      [Effect.emitStart "Updating buckets...",
       Effect.emitOutput "Starting automatic bucket update..." "stdout"],
      bucketStageTail s w l a ts bo po, rfl, ?_⟩
    unfold emitIfVisible
    split <;> simp

/-- Claim C2, counterexample: a bucket-stage run over an empty result list is
recorded as 0 successes of 0 targets: the bucket stage applies no 1/1 floor,
so `totalCount` can be zero, refuting the invariant as claimed. -/
theorem claim_C2_counterexample :
    logEntriesOf (schedulerRun false true true false 0 (Except.ok [])
        (Except.ok [])) = [bucketLogEntry []] ∧
    (bucketLogEntry []).total_count = 0 ∧
    (bucketLogEntry []).success_count = 0 := by
  refine ⟨by decide, by decide, by decide⟩

/-- Claim C2, amended: `successCount ≤ totalCount` holds for every entry
either stage constructs (given fewer than `2 ^ 32` targets or detail lines,
below the `u32` casts); the package stage additionally guarantees a nonzero
`totalCount` and records a run with zero detail lines as 1/1, and the
package failure entry is 0 of 1; but a bucket-stage run with zero targets is
recorded as 0/0, so its `totalCount` can be zero. -/
theorem claim_C2_amended (results : List BucketResult) (lines : List String)
    (err : String) (hr : results.length < U32_MOD)
    (hl : lines.length < U32_MOD) :
    ((bucketLogEntry results).success_count ≤
      (bucketLogEntry results).total_count) ∧
    ((packageLogEntry lines).success_count ≤
        (packageLogEntry lines).total_count ∧
      (packageLogEntry lines).total_count ≠ 0) ∧
    ((packageErrorLogEntry err).success_count = 0 ∧
      (packageErrorLogEntry err).total_count = 1) ∧
    (lines = [] → (packageLogEntry lines).success_count = 1 ∧
      (packageLogEntry lines).total_count = 1) := by
  have hb : ((results.filter fun r => r.success).length) ≤ results.length :=
    List.length_filter_le _ _
  have hp : packageSuccessCount lines ≤ lines.length :=
    List.length_filter_le _ _
  have hb2 : ((results.filter fun r => r.success).length) % U32_MOD =
      (results.filter fun r => r.success).length :=
    Nat.mod_eq_of_lt (lt_of_le_of_lt hb hr)
  have hr2 : results.length % U32_MOD = results.length := Nat.mod_eq_of_lt hr
  have hp2 : packageSuccessCount lines % U32_MOD =
      packageSuccessCount lines :=
    Nat.mod_eq_of_lt (lt_of_le_of_lt hp hl)
  have hl2 : lines.length % U32_MOD = lines.length := Nat.mod_eq_of_lt hl
  refine ⟨?_, ?_, ⟨rfl, rfl⟩, ?_⟩
  · simp only [bucketLogEntry, hb2, hr2]
    exact hb
  · simp only [packageLogEntry, hp2, hl2]
    constructor
    · split <;> split <;> omega
    · split <;> omega
  · intro hnil
    subst hnil
    decide

/-- Claim C2 amended witness: one successful bucket result gives a 1/1
bucket entry, and an empty package detail list gives the 1/1 floor. -/
theorem claim_C2_amended_witness :
    (bucketLogEntry [⟨true, "main", ""⟩]).success_count ≤
      (bucketLogEntry [⟨true, "main", ""⟩]).total_count ∧
    (packageLogEntry []).success_count = 1 ∧
    (packageLogEntry []).total_count = 1 := by
  have h := claim_C2_amended [⟨true, "main", ""⟩] [] "e" (by decide)
    (by decide)
  exact ⟨h.1, h.2.2.2 rfl⟩

/-- Claim C3, counterexample: with logging enabled, a scheduled run whose
bucket-update collaborator returns an error appends no `UpdateLogEntry` at
all, refuting that a bucket entry is written regardless of the outcome. -/
theorem claim_C3_counterexample :
    logEntriesOf (schedulerRun false true true true 0 (Except.error "boom")
      (Except.ok ["x"])) = [] := by
  decide

/-- Claim C3, amended: for every scheduled run whose bucket-update
collaborator succeeds, if logging is enabled then exactly one entry with
`operationType = "bucket"` is appended, regardless of silent mode and window
presence; when the collaborator returns an error, no entry is appended at
all. -/
theorem claim_C3_amended (s w l a : Bool) (ts : Nat)
    (results : List BucketResult) (err : String)
    (po : Except String (List String)) :
    ((logEntriesOf (schedulerRun s w l a ts (Except.ok results) po)).filter
        (fun en => en.operation_type == "bucket") =
      (if l then [bucketLogEntry results] else [])) ∧
    logEntriesOf (schedulerRun s w l a ts (Except.error err) po) = [] := by
  constructor
  · rw [logEntriesOf_schedulerRun]
    cases l <;> cases a <;> cases po <;>
      simp [List.filter_append, bucketLogEntry, packageLogEntry,
        packageErrorLogEntry]
  · rw [logEntriesOf_schedulerRun]

/-- Claim C9: a scheduled run in silent mode emits none of the three UI
events on any path of either stage, while the log-store appends are exactly
those of the corresponding non-silent run. -/
theorem claim_C9 (w l a : Bool) (ts : Nat)
    (bo : Except String (List BucketResult))
    (po : Except String (List String)) :
    ((schedulerRun true w l a ts bo po).all fun e => !isUiEvent e) = true ∧
    logEntriesOf (schedulerRun true w l a ts bo po) =
      logEntriesOf (schedulerRun false w l a ts bo po) := by
  constructor
  · cases bo <;> cases a <;> cases po <;> cases l <;>
      simp [schedulerRun, bucketStageTail, packageStage, emitIfVisible,
        add_log_entry_if_enabled, isUiEvent, List.all_append]
  · rw [logEntriesOf_schedulerRun, logEntriesOf_schedulerRun]

/-- Claim C7: a path classified as webview-locked is never deleted:
`safe_remove_file` and `safe_remove_dir` return false with an empty list of
delete syscalls, for every oracle, every retry bound and every directory
content. -/
theorem claim_C7 (fileOracle dirOracle : FsPath → Nat → Bool)
    (maxFileRetries maxDirRetries : Nat) (p q : FsPath)
    (children : List FsNode)
    (hp : is_webview_locked_file p = true)
    (hq : is_webview_locked_dir q = true) :
    safe_remove_file fileOracle maxFileRetries p = (false, []) ∧
    safe_remove_dir fileOracle dirOracle maxFileRetries maxDirRetries q
      children = (false, []) := by
  constructor
  · simp [safe_remove_file, hp]
  · rw [safe_remove_dir]
    simp [hq]

/-- Claim C7 witness: the lock file of an `IndexedDB` database under
`EBWebView` and the `IndexedDB` directory itself are both skipped without a
single delete call, even under an oracle whose deletions always succeed. -/
theorem claim_C7_witness :
    safe_remove_file (fun _ _ => true) 3
      ⟨"EBWebView/IndexedDB/LOCK", "LOCK"⟩ = (false, []) ∧
    safe_remove_dir (fun _ _ => true) (fun _ _ => true) 3 3
      ⟨"EBWebView/IndexedDB", "IndexedDB"⟩ [] = (false, []) :=
  claim_C7 (fun _ _ => true) (fun _ _ => true) 3 3
    ⟨"EBWebView/IndexedDB/LOCK", "LOCK"⟩ ⟨"EBWebView/IndexedDB", "IndexedDB"⟩
    [] (by decide) (by decide)

/-- Claim C8: `factory_reset` returns exactly what the marker-writing step
returns: an error precisely when `create_factory_reset_marker` fails
(including an undeterminable application data directory), while the
application-data sweep and the store-file sweep never produce an error, for
every deletion-outcome oracle and every directory or store-file content. -/
theorem claim_C8 (fileOracle dirOracle : FsPath → Nat → Bool)
    (dataDirs : List DataDirSnapshot) (storeFiles : List StoreFileSnapshot)
    (dataDirAvailable createDirOk writeOk : Bool)
    (dirErr writeErr : String) :
    factory_reset fileOracle dirOracle dataDirs storeFiles dataDirAvailable
      createDirOk writeOk dirErr writeErr =
    create_factory_reset_marker dataDirAvailable createDirOk writeOk dirErr
      writeErr := by
  obtain ⟨out, hout⟩ :=
    clearDataDirs_ok fileOracle dirOracle ⟨0, []⟩ dataDirs
  unfold factory_reset clear_application_data clear_store_data
  rw [hout]
  cases hm : create_factory_reset_marker dataDirAvailable createDirOk writeOk
      dirErr writeErr with
  | ok u =>
    cases u
    simp [schedule_webview_cleanup, Except.bind]
  | error e =>
    simp [Except.bind]

end Rscoop
